import Mathlib

/-!
Verification development for the veranda raster library.

The Python sources embedded here are:
  raster.py                  (RasterData / RasterLayer / RasterStack hierarchy)
  raster/driver/geotiff.py   (GeoTiffDriver)
  raster/mosaic/netcdf.py    (NetCdfReader)

The geometry primitives (geospade: intersection, pixel clipping, relative
extents) are an external capability of the program; they are modelled here at
the boundary the specification gives for them (axis-aligned unit-pixel,
north-up geometries), which is the only regime the claims quantify over.
Python exceptions are modelled by an error type and `Except`; a numpy array is
modelled as a shape vector together with an indexing function.
-/

/-- Kinds of Python exceptions the embedded code can raise.  `generic` stands
for a plain `Exception`; `dimensionsMismatch` for the library's own
`DimensionsMismatch` class. -/
inductive PyErr where
  | attributeError
  | valueError
  | indexError
  | typeError
  | ioError
  | dimensionsMismatch
  | generic
  deriving DecidableEq, Repr

/-- Modelled from the spec: a raster geometry of the external GeometryProvider
capability, restricted to unit pixel size and north-up orientation.  `ul_x`,
`ul_y` is the world coordinate of the upper-left corner; the covered world
extent is `x` in `[ul_x, ul_x + n_cols]` and `y` in `[ul_y - n_rows, ul_y]`.
Spatial-reference tags are omitted: all geometries share one reference frame. -/
structure RasterGeometry where
  ul_x : Int
  ul_y : Int
  n_rows : Nat
  n_cols : Nat
  deriving DecidableEq, Repr

/-- Modelled from the spec: `intersect(a, b) -> geometry|None` of the external
geometry capability (the `&` operator on raster geometries): the common
axis-aligned rectangle, or `none` when the geometries do not overlap. -/
def rgIntersect (a b : RasterGeometry) : Option RasterGeometry :=
  let x0 := max a.ul_x b.ul_x
  let x1 := min (a.ul_x + a.n_cols) (b.ul_x + b.n_cols)
  let y1 := min a.ul_y b.ul_y
  let y0 := max (a.ul_y - a.n_rows) (b.ul_y - b.n_rows)
  if x0 < x1 ∧ y0 < y1 then
    some { ul_x := x0, ul_y := y1, n_rows := (y1 - y0).toNat, n_cols := (x1 - x0).toNat }
  else
    none

/-- Modelled from the spec: `a.within(b)` of the geometry capability — the
extent of `a` lies inside the extent of `b`. -/
def rgWithin (a b : RasterGeometry) : Bool :=
  b.ul_x ≤ a.ul_x ∧ a.ul_x + a.n_cols ≤ b.ul_x + b.n_cols ∧
  a.ul_y ≤ b.ul_y ∧ b.ul_y - b.n_rows ≤ a.ul_y - a.n_rows

/-- Inclusive pixel bounds of a rectangular window relative to some origin. -/
structure PxExtent where
  min_col : Int
  min_row : Int
  max_col : Int
  max_row : Int
  deriving DecidableEq, Repr

/-- Modelled from the spec: `rel_extent(origin, inner_extent, 1, 1)` of the
geometry capability — the inclusive pixel bounds of a geometry's inner world
extent relative to the pixel grid anchored at `(ul_x, ul_y)`. -/
def relExtent (ul_x ul_y : Int) (g : RasterGeometry) : PxExtent :=
  { min_col := g.ul_x - ul_x
    min_row := ul_y - g.ul_y
    max_col := g.ul_x + g.n_cols - ul_x - 1
    max_row := ul_y - (g.ul_y - g.n_rows) - 1 }

/-- Modelled from the spec: `RasterGeometry.intersection_by_pixel(px_extent)`
of the geometry capability, with `px_extent = (min_row, min_col, max_row,
max_col)` as named at the `_load_array` call site (raster.py:724-727).  The
code only ever consumes the spatial reference and geotransform (the new
upper-left origin) of the result, never its row/column counts. -/
def intersectionByPixel (g : RasterGeometry)
    (min_row min_col max_row max_col : Int) : RasterGeometry :=
  { ul_x := g.ul_x + min_col
    ul_y := g.ul_y - min_row
    n_rows := (max_row - min_row + 1).toNat
    n_cols := (max_col - min_col + 1).toNat }

/-- Modelled from the spec: `clip_pixel_window` (geospade `crop_px_extent`,
raster.py:657): pixel bounds clipped to `[0, n_rows-1] x [0, n_cols-1]`. -/
def cropPxExtent (g : RasterGeometry) (min_row min_col max_row max_col : Int) :
    PxExtent :=
  { min_col := max 0 min_col
    min_row := max 0 min_row
    max_col := min ((g.n_cols : Int) - 1) max_col
    max_row := min ((g.n_rows : Int) - 1) max_row }

/-- Shallow model of a numpy array: its shape and an indexing function from an
index vector to the stored value. -/
structure NpArr where
  shape : List Nat
  val : List Nat → Int

/-- Row count (first shape entry) of an array. -/
def NpArr.rows (a : NpArr) : Nat := a.shape.getD 0 0

/-- Column count (second shape entry) of an array. -/
def NpArr.cols (a : NpArr) : Nat := a.shape.getD 1 0

/-- Numpy basic slicing `a[r0:r1, c0:c1]` of a rank-2 array with non-negative
bounds: out-of-range stops are clamped to the array extent, never an error. -/
def npSlice2d (a : NpArr) (r0 r1 c0 c1 : Nat) : NpArr :=
  { shape := [min r1 a.rows - r0, min c1 a.cols - c0]
    val := fun ix => a.val [r0 + ix.getD 0 0, c0 + ix.getD 1 0] }

/-- Modelled from the spec: the FormatDriver capability backing a
`RasterData` node (`veranda.io.*`, not part of the embedded sources).
`readVal` gives the on-disk value at an absolute pixel position;
`read(row, col, row_size, col_size)` materialises a window of that size. -/
structure IoM where
  readVal : Int → Int → Int

/-- Modelled from the spec: the windowed read of the FormatDriver contract —
`read(row, col, n_rows, n_cols) -> array` of exactly the requested shape. -/
def ioRead (io : IoM) (row col : Int) (row_size col_size : Nat) : NpArr :=
  { shape := [row_size, col_size]
    val := fun ix => io.readVal (row + ix.getD 0 0) (col + ix.getD 1 0) }

/-- Embedding of a `RasterLayer` node (raster.py).  `geom` is
`self.raster_geom`; `rootGeom` collapses the parent chain to the root's
geometry, which is all `parent_root.raster_geom` (raster.py:219-225) and
`raster_geom.parent_root` are consulted for; `data` is `self._data`
(`None` = unbound); `io` the optional driver instance. -/
structure RasterLayerM where
  geom : RasterGeometry
  rootGeom : RasterGeometry
  data : Option NpArr
  io : Option IoM

/-- Embedding of `RasterLayer.from_array` (raster.py:1039-1076) combined with
the `RasterData` constructor, for rank-2 numpy data: the geometry's row and
column counts are taken from the data's shape, its origin from the supplied
geotransform; the parent back-reference keeps the caller's root geometry. -/
def fromArrayLayer (parent : RasterLayerM) (g : RasterGeometry) (d : NpArr) :
    RasterLayerM :=
  { geom := { ul_x := g.ul_x, ul_y := g.ul_y, n_rows := d.rows, n_cols := d.cols }
    rootGeom := parent.rootGeom
    data := some d
    io := parent.io }

/-- Embedding of `RasterData._load_array` (raster.py:672-738) on the numpy
path with no extra slices, no band selection and `inplace=False`: slices the
in-memory array by the pixel window `[r0, r1) x [c0, c1)` (stop exclusive,
raster.py:370 adds the `+1`) and rebuilds a child node via `from_array` with
the origin of `intersection_by_pixel`.  The slice bounds are non-negative at
every call site (they come from an intersection with the node's own
geometry), so converting them to `Nat` is faithful. -/
def loadArray (node : RasterLayerM) (d : NpArr) (r0 r1 c0 c1 : Int) :
    RasterLayerM :=
  let data := npSlice2d d r0.toNat r1.toNat c0.toNat c1.toNat
  let ig := intersectionByPixel node.geom r0 c0 r1 c1
  fromArrayLayer node ig data

/-- Embedding of `RasterData.crop` (raster.py:331-378) with `slices=None`,
`apply_mask=False`, `inplace=False`: intersects the node's geometry with the
given one; when the intersection exists and the node holds data, slices the
in-memory array by the intersection's pixel window; otherwise returns `None`. -/
def crop (node : RasterLayerM) (geom : RasterGeometry) : Option RasterLayerM :=
  match rgIntersect node.geom geom with
  | some ig =>
    match node.data with
    | some d =>
      let e := relExtent node.geom.ul_x node.geom.ul_y ig
      some (loadArray node d e.min_row (e.max_row + 1) e.min_col (e.max_col + 1))
    | none => none
  | none => none

/-! Claim C1: crop versus geometry intersection. -/

/-- Geometry of the C1 counterexample node. -/
def c1Geom : RasterGeometry := { ul_x := 0, ul_y := 5, n_rows := 5, n_cols := 5 }

/-- Unbound node (geometry known, no array in memory) for C1. -/
def c1UnboundNode : RasterLayerM :=
  { geom := c1Geom, rootGeom := c1Geom, data := none, io := none }

/-- C1 (counterexample): the claim says `crop` returns no node exactly when the
geometries do not intersect; but for an unbound node (`self._data is None`,
raster.py:365) `crop` returns `None` even though the intersection with its own
geometry is non-empty. -/
theorem crop_none_despite_intersection :
    (rgIntersect c1UnboundNode.geom c1Geom).isSome = true ∧
    (crop c1UnboundNode c1Geom).isNone = true :=
  ⟨rfl, rfl⟩

/-- C1 (amended): for a node holding an array whose shape matches its
geometry, `crop(B)` returns a node whose geometry equals the intersection of
the node's geometry with `B`, and returns no node exactly when the
intersection is empty; for an unbound node `crop` returns no node even when
the geometries intersect. -/
theorem crop_geom_eq_intersection (node : RasterLayerM) (geomB : RasterGeometry)
    (d : NpArr) (hd : node.data = some d)
    (hshape : d.shape = [node.geom.n_rows, node.geom.n_cols]) :
    (∀ ig, rgIntersect node.geom geomB = some ig →
      ∃ res, crop node geomB = some res ∧ res.geom = ig) ∧
    ((crop node geomB).isNone ↔ (rgIntersect node.geom geomB).isNone) := by
  constructor
  · intro ig hig
    refine ⟨loadArray node d (relExtent node.geom.ul_x node.geom.ul_y ig).min_row
        ((relExtent node.geom.ul_x node.geom.ul_y ig).max_row + 1)
        (relExtent node.geom.ul_x node.geom.ul_y ig).min_col
        ((relExtent node.geom.ul_x node.geom.ul_y ig).max_col + 1), ?_, ?_⟩
    · simp only [crop, hig, hd]
    · unfold rgIntersect at hig
      simp only at hig
      split at hig
      · next hcond =>
        obtain ⟨hx, hy⟩ := hcond
        injection hig with hig
        subst hig
        simp only [loadArray, fromArrayLayer, intersectionByPixel, npSlice2d,
          relExtent, NpArr.rows, NpArr.cols, hshape, RasterGeometry.mk.injEq,
          List.getD_cons_zero, List.getD_cons_succ]
        omega
      · exact absurd hig (by simp)
  · cases hig : rgIntersect node.geom geomB with
    | some ig => simp [crop, hig, hd]
    | none => simp [crop, hig]

/-- Bound node used to witness the amended C1 theorem. -/
def c1wNode : RasterLayerM :=
  { geom := c1Geom, rootGeom := c1Geom
    data := some { shape := [5, 5], val := fun _ => 0 }, io := none }

/-- Witness for the amended C1 theorem at a concrete bound node and a concrete
overlapping geometry. -/
theorem crop_geom_eq_intersection_witness :
    ∃ res, crop c1wNode { ul_x := 1, ul_y := 4, n_rows := 2, n_cols := 2 } = some res ∧
      res.geom = { ul_x := 1, ul_y := 4, n_rows := 2, n_cols := 2 } :=
  (crop_geom_eq_intersection c1wNode
    { ul_x := 1, ul_y := 4, n_rows := 2, n_cols := 2 }
    { shape := [5, 5], val := fun _ => 0 } rfl rfl).1
    { ul_x := 1, ul_y := 4, n_rows := 2, n_cols := 2 } rfl

/-! Loading operations: `load`, `load_by_geom`, `load_by_pixel`. -/

/-- Embedding of `RasterData.load` (raster.py:380-460) on the numpy path with
`inplace=False`; the optional `window` is the `(row, col, row_size, col_size)`
read keywords.  With no io instance the method raises a plain `Exception`
(raster.py:415-417).  The modelled driver always returns data of the requested
window size, so the `data is None` check (raster.py:434) cannot fire.  When a
window is given, `px_extent` is the tuple `(row, max_row, col, max_col)`
(raster.py:445-447); it is passed positionally into `intersection_by_pixel`,
whose slots are `(min_row, min_col, max_row, max_col)`. -/
def load (node : RasterLayerM) (window : Option (Int × Int × Nat × Nat)) :
    Except PyErr RasterLayerM :=
  match node.io with
  | none => .error .generic
  | some io =>
    match window with
    | some (row, col, row_size, col_size) =>
      let data := ioRead io row col row_size col_size
      let max_row := row + row_size - 1
      let max_col := col + col_size - 1
      let ig := intersectionByPixel node.geom row max_row col max_col
      .ok (fromArrayLayer node ig data)
    | none =>
      let data := ioRead io 0 0 node.geom.n_rows node.geom.n_cols
      .ok (fromArrayLayer node node.geom data)

/-- Embedding of `RasterData.load_by_geom` (raster.py:530-608) on the numpy
path with `apply_mask=False`, `inplace=False`.  The boolean of the result
records whether the non-intersection warning was emitted.  The relative
extent of `self.raster_geom & geom` is computed (raster.py:576-583) before
the `parent_root...intersects` check at raster.py:585; when the node's own
geometry does not intersect `geom`, that intersection is `None` and accessing
`None.inner_extent` raises an `AttributeError` first.  Note raster.py:582-583
compute `row_size`/`col_size` without the `+1` used elsewhere. -/
def loadByGeom (node : RasterLayerM) (geom : RasterGeometry) :
    Except PyErr (RasterLayerM × Bool) :=
  match rgIntersect node.geom geom with
  | none => .error .attributeError
  | some ig =>
    let e := relExtent node.rootGeom.ul_x node.rootGeom.ul_y ig
    let row_size := e.max_row - e.min_row
    let col_size := e.max_col - e.min_col
    if (rgIntersect node.rootGeom geom).isSome then
      match node.data with
      | none =>
        (load node (some (e.min_row, e.min_col, row_size.toNat, col_size.toNat))).map
          (fun r => (r, false))
      | some d =>
        if rgWithin node.geom geom then
          .ok (loadArray node d e.min_row (e.max_row + 1) e.min_col (e.max_col + 1), false)
        else
          (load node (some (e.min_row, e.min_col, row_size.toNat, col_size.toNat))).map
            (fun r => (r, false))
    else
      .ok (node, true)

/-- Embedding of `RasterData.load_by_pixel` (raster.py:610-670) on the numpy
path with `inplace=False`: the requested inclusive pixel window is clipped by
`crop_px_extent`, then either dispatched to `load` (unbound node) or sliced
from memory (bound node). -/
def loadByPixel (node : RasterLayerM) (row col row_size col_size : Int) :
    Except PyErr RasterLayerM :=
  let e := cropPxExtent node.geom row col (row + row_size - 1) (col + col_size - 1)
  match node.data with
  | none =>
    load node (some (e.min_row, e.min_col, (e.max_row - e.min_row + 1).toNat,
      (e.max_col - e.min_col + 1).toNat))
  | some d =>
    .ok (loadArray node d e.min_row (e.max_row + 1) e.min_col (e.max_col + 1))

/-! Claim C3: load_by_geom on a non-intersecting geometry. -/

/-- Root node (its own geometry is the root geometry) used for C3. -/
def c3Node : RasterLayerM :=
  { geom := c1Geom, rootGeom := c1Geom, data := none, io := none }

/-- Disjoint query geometry used for C3: x in [10, 12], far right of
`c1Geom`'s x range [0, 5]. -/
def c3Disjoint : RasterGeometry := { ul_x := 10, ul_y := 5, n_rows := 2, n_cols := 2 }

/-- C3 (failing input): the query geometry does not intersect the node's root
geometry, yet `load_by_geom` raises an `AttributeError` (raster.py:576-579
dereferences the `None` intersection before the intersection check at
raster.py:585) instead of warning and returning the node unchanged. -/
theorem load_by_geom_raises_on_disjoint :
    (rgIntersect c3Node.rootGeom c3Disjoint).isNone = true ∧
    loadByGeom c3Node c3Disjoint = Except.error PyErr.attributeError :=
  ⟨rfl, rfl⟩

/-! Claim C7: load_by_pixel clips out-of-range windows. -/

/-- C7: for every pixel window request on a node that is either bound to an
array of the geometry's shape or unbound with a driver attached,
`load_by_pixel` returns a node (never raises); the requested inclusive bounds
are clipped to the node's extent before dispatch and the returned node's
geometry has exactly the clipped window's row and column counts. -/
theorem load_by_pixel_clips (node : RasterLayerM) (row col row_size col_size : Int)
    (hio : node.data = none → node.io.isSome = true)
    (hshape : ∀ d, node.data = some d → d.shape = [node.geom.n_rows, node.geom.n_cols]) :
    ∃ res, loadByPixel node row col row_size col_size = Except.ok res ∧
      res.geom.n_rows =
        ((cropPxExtent node.geom row col (row + row_size - 1) (col + col_size - 1)).max_row -
          (cropPxExtent node.geom row col (row + row_size - 1) (col + col_size - 1)).min_row
          + 1).toNat ∧
      res.geom.n_cols =
        ((cropPxExtent node.geom row col (row + row_size - 1) (col + col_size - 1)).max_col -
          (cropPxExtent node.geom row col (row + row_size - 1) (col + col_size - 1)).min_col
          + 1).toNat := by
  cases hdata : node.data with
  | none =>
    have hsome := hio hdata
    cases hios : node.io with
    | none => rw [hios] at hsome; exact absurd hsome (by simp)
    | some io =>
      simp only [loadByPixel, hdata, load, hios]
      exact ⟨_, rfl, rfl, rfl⟩
  | some d =>
    have hs := hshape d hdata
    simp only [loadByPixel, hdata]
    refine ⟨_, rfl, ?_, ?_⟩
    · simp only [loadArray, fromArrayLayer, npSlice2d, NpArr.rows, NpArr.cols,
        hs, cropPxExtent, List.getD_cons_zero, List.getD_cons_succ]
      omega
    · simp only [loadArray, fromArrayLayer, npSlice2d, NpArr.rows, NpArr.cols,
        hs, cropPxExtent, List.getD_cons_zero, List.getD_cons_succ]
      omega

/-- Array held by the C7 witness node. -/
def c7Arr : NpArr := { shape := [5, 5], val := fun _ => 0 }

/-- Bound 5x5 node used to witness C7. -/
def c7Node : RasterLayerM :=
  { geom := c1Geom, rootGeom := c1Geom, data := some c7Arr, io := none }

/-- Witness for C7: a 4x4 window anchored at pixel (3, 3) of a 5x5 layer is
clipped to the 2x2 window that is inside the extent. -/
theorem load_by_pixel_clips_witness :
    ∃ res, loadByPixel c7Node 3 3 4 4 = Except.ok res ∧
      res.geom.n_rows = 2 ∧ res.geom.n_cols = 2 := by
  obtain ⟨res, h1, h2, h3⟩ := load_by_pixel_clips c7Node 3 3 4 4
    (fun h => Option.noConfusion h)
    (fun d h => by
      have h2 : some c7Arr = some d := h
      injection h2 with h2
      subst h2
      rfl)
  exact ⟨res, h1, by simpa using h2, by simpa using h3⟩

/-! Claim C4: RasterStack label-slice indexing. -/

/-- Embedding of Python's `list.index` on label lists: position of the first
occurrence, or a `ValueError` when the label is absent. -/
def pyIndex (xs : List Int) (x : Int) : Except PyErr Nat :=
  match xs with
  | [] => .error .valueError
  | y :: ys => if y = x then .ok 0 else (pyIndex ys x).map (· + 1)

/-- Embedding of the label resolution of `RasterStack.__getitem__`
(raster.py:1941-1962): a label slice `start:stop` is resolved by
`list.index` on both endpoints, a slice with `stop < start` compared as label
values (raster.py:1948) raises a plain `Exception`, and otherwise the labels
`all_layer_ids[start_idx:(stop_idx + 1)]` are selected. -/
def getitemLayerIds (all_layer_ids : List Int) (start stop : Option Int) :
    Except PyErr (List Int) :=
  match start, stop with
  | some s, some t => do
    let si ← pyIndex all_layer_ids s
    let ti ← pyIndex all_layer_ids t
    if t < s then
      .error .generic
    else
      .ok ((all_layer_ids.drop si).take (ti + 1 - si))
  | some s, none => (pyIndex all_layer_ids s).map (fun si => all_layer_ids.drop si)
  | none, some t => (pyIndex all_layer_ids t).map (fun ti => all_layer_ids.take (ti + 1))
  | none, none => .ok all_layer_ids

/-- Python `list.index` fails with `ValueError` exactly on absent labels. -/
theorem pyIndex_not_mem (xs : List Int) (x : Int) (h : x ∉ xs) :
    pyIndex xs x = .error .valueError := by
  induction xs with
  | nil => rfl
  | cons y ys ih =>
    simp only [List.mem_cons, not_or] at h
    have hne : ¬y = x := fun hyx => h.1 hyx.symm
    simp only [pyIndex, if_neg hne, ih h.2]
    rfl

/-- C4 (counterexample): in the stack label order `[2, 1]` the stop label `2`
(position 0) precedes the start label `1` (position 1); the claim says such a
slice fails, but since the code compares label values (`2 < 1` is false,
raster.py:1948) it instead returns an empty selection. -/
theorem label_slice_descending_order_no_failure :
    getitemLayerIds [2, 1] (some 1) (some 2) = Except.ok [] ∧
    pyIndex [2, 1] 2 = Except.ok 0 ∧ pyIndex [2, 1] 1 = Except.ok 1 :=
  ⟨rfl, rfl, rfl⟩

/-- C4 (amended): on labels `[1,2,3,4,5]` the slice `2:4` selects exactly the
labels `[2,3,4]` (both endpoints inclusive); when both labels are present, a
slice fails (with a plain `Exception`) exactly when the stop label is smaller
than the start label by value comparison — not by position in the label
order — and otherwise selects the labels between the two positions,
endpoints included; a slice naming an unknown start label fails with a
`ValueError`, not an `IndexError`-class error. -/
theorem label_slice_semantics (all_layer_ids : List Int) (s t : Int) :
    (getitemLayerIds [1, 2, 3, 4, 5] (some 2) (some 4) = Except.ok [2, 3, 4]) ∧
    (∀ si ti, pyIndex all_layer_ids s = Except.ok si →
      pyIndex all_layer_ids t = Except.ok ti →
      getitemLayerIds all_layer_ids (some s) (some t) =
        if t < s then Except.error PyErr.generic
        else Except.ok ((all_layer_ids.drop si).take (ti + 1 - si))) ∧
    (s ∉ all_layer_ids →
      getitemLayerIds all_layer_ids (some s) (some t) = Except.error PyErr.valueError) := by
  refine ⟨rfl, ?_, ?_⟩
  · intro si ti hsi hti
    simp only [getitemLayerIds, hsi, hti, Except.bind]
    split
    · rfl
    · rfl
  · intro hs
    simp only [getitemLayerIds, pyIndex_not_mem all_layer_ids s hs, Except.bind]
    rfl

/-- Witness for the amended C4 theorem: on labels `[5, 6]` the value-descending
slice `6:5` raises, and the slice `99:5` with an unknown start label raises a
`ValueError`. -/
theorem label_slice_semantics_witness :
    getitemLayerIds [5, 6] (some 6) (some 5) = Except.error PyErr.generic ∧
    getitemLayerIds [5, 6] (some 99) (some 5) = Except.error PyErr.valueError := by
  constructor
  · have h := (label_slice_semantics [5, 6] 6 5).2.1 1 0 rfl rfl
    rw [if_pos (by decide)] at h
    exact h
  · exact (label_slice_semantics [5, 6] 99 5).2.2 (by decide)

/-! Claim C5: RasterStack construction and layer congruency. -/

/-- Embedding of a `RasterStack` node: the shared geometry, the ordered layer
labels (the pandas series index), the layer descriptors, and the optional 3-D
array. -/
structure RasterStackM where
  geom : RasterGeometry
  labels : List Int
  layers : List RasterLayerM
  data : Option NpArr

/-- Embedding of `RasterStack.__init__` (raster.py:1314-1356): the first
layer's geometry is the base; when any layer's geometry differs the
constructor raises a plain `Exception` ("The raster layers are not
congruent.", raster.py:1349-1350); an empty layer sequence fails at the
positional `[0]` lookup; with the congruency check passed, the `RasterData`
constructor runs `_check_data`, which for a stack requires rank-3 data. -/
def rasterStackInit (labels : List Int) (raster_layers : List RasterLayerM)
    (data : Option NpArr) : Except PyErr RasterStackM :=
  match raster_layers with
  | [] => .error .indexError
  | base :: rest =>
    if (base :: rest).all (fun l => l.geom == base.geom) then
      match data with
      | some a =>
        if a.shape.length = 3 then
          .ok { geom := base.geom, labels := labels, layers := base :: rest, data := data }
        else
          .error .generic
      | none =>
        .ok { geom := base.geom, labels := labels, layers := base :: rest, data := none }
    else
      .error .generic

/-- First geometry of the C5 counterexample (5 rows). -/
def c5GeomA : RasterGeometry := { ul_x := 0, ul_y := 5, n_rows := 5, n_cols := 5 }

/-- Second geometry of the C5 counterexample (4 rows: not congruent). -/
def c5GeomB : RasterGeometry := { ul_x := 0, ul_y := 5, n_rows := 4, n_cols := 5 }

/-- Layer with geometry `c5GeomA`. -/
def c5LayerA : RasterLayerM :=
  { geom := c5GeomA, rootGeom := c5GeomA, data := none, io := none }

/-- Layer with geometry `c5GeomB`. -/
def c5LayerB : RasterLayerM :=
  { geom := c5GeomB, rootGeom := c5GeomB, data := none, io := none }

/-- C5 (counterexample): constructing a stack from two non-congruent layers
fails with a plain `Exception` (raster.py:1349-1350), not with the library's
`DimensionsMismatch` class as the claim states. -/
theorem stack_init_plain_exception :
    rasterStackInit [0, 1] [c5LayerA, c5LayerB] none = Except.error PyErr.generic ∧
    PyErr.generic ≠ PyErr.dimensionsMismatch :=
  ⟨rfl, by decide⟩

/-- C5 (amended): for every non-empty layer sequence, construction succeeds
exactly when all layers' geometries are congruent with the first one; for a
non-congruent sequence it fails, but with a plain `Exception`, not a
`DimensionsMismatch`-class error. -/
theorem stack_init_congruence (labels : List Int) (base : RasterLayerM)
    (rest : List RasterLayerM) :
    ((∀ l ∈ base :: rest, l.geom = base.geom) →
      (rasterStackInit labels (base :: rest) none).isOk = true) ∧
    ((¬∀ l ∈ base :: rest, l.geom = base.geom) →
      rasterStackInit labels (base :: rest) none = Except.error PyErr.generic) := by
  constructor
  · intro hcong
    have hall : (base :: rest).all (fun l => l.geom == base.geom) = true := by
      rw [List.all_eq_true]
      intro l hl
      exact beq_iff_eq.mpr (hcong l hl)
    simp [rasterStackInit, hall, Except.isOk, Except.toBool]
  · intro hncong
    have hall : (base :: rest).all (fun l => l.geom == base.geom) = false := by
      rcases h : (base :: rest).all (fun l => l.geom == base.geom) with _ | _
      · rfl
      · exact absurd (fun l hl => beq_iff_eq.mp (List.all_eq_true.mp h l hl)) hncong
    simp [rasterStackInit, hall]

/-- Witness for the amended C5 theorem: two congruent copies build a stack;
one congruent and one shorter layer fail with a plain `Exception`. -/
theorem stack_init_congruence_witness :
    (rasterStackInit [0, 1] [c5LayerA, c5LayerA] none).isOk = true ∧
    rasterStackInit [0, 1] [c5LayerA, c5LayerB] none = Except.error PyErr.generic :=
  ⟨(stack_init_congruence [0, 1] c5LayerA [c5LayerA]).1 (by decide),
   (stack_init_congruence [0, 1] c5LayerA [c5LayerB]).2 (by decide)⟩

/-! Claim C6: array-shape validation on construction and assignment. -/

/-- Embedding of the `RasterData`/`RasterLayer` constructor path
(raster.py:158-196 with raster.py:1226-1256): on construction only
`_check_data` runs, which validates the array's type and rank (2 for a
layer), never its shape against the geometry; the array is stored as given. -/
def rasterLayerInit (n_rows n_cols : Nat) (ul_x ul_y : Int) (data : Option NpArr) :
    Except PyErr RasterLayerM :=
  match data with
  | some a =>
    if a.shape.length = 2 then
      .ok { geom := { ul_x := ul_x, ul_y := ul_y, n_rows := n_rows, n_cols := n_cols }
            rootGeom := { ul_x := ul_x, ul_y := ul_y, n_rows := n_rows, n_cols := n_cols }
            data := some a, io := none }
    else
      .error .generic
  | none =>
    .ok { geom := { ul_x := ul_x, ul_y := ul_y, n_rows := n_rows, n_cols := n_cols }
          rootGeom := { ul_x := ul_x, ul_y := ul_y, n_rows := n_rows, n_cols := n_cols }
          data := none, io := none }

/-- Embedding of the `RasterLayer.data` setter (raster.py:956-974): rank is
checked by `_check_data` (raising on non-2-D data); a 2-D array whose shape
mismatches the geometry is not assigned — the setter emits a warning (the
boolean of the result) and leaves the stored data unchanged. -/
def rasterLayerSetData (node : RasterLayerM) (d : NpArr) :
    Except PyErr (RasterLayerM × Bool) :=
  if d.shape.length = 2 then
    if d.shape = [node.geom.n_rows, node.geom.n_cols] then
      .ok ({ node with data := some d }, false)
    else
      .ok (node, true)
  else
    .error .generic

/-- Embedding of the `RasterStack.data` setter (raster.py:1364-1384):
analogous to the layer setter with rank 3 and the layer count as the first
dimension. -/
def rasterStackSetData (stack : RasterStackM) (d : NpArr) :
    Except PyErr (RasterStackM × Bool) :=
  if d.shape.length = 3 then
    if d.shape = [stack.layers.length, stack.geom.n_rows, stack.geom.n_cols] then
      .ok ({ stack with data := some d }, false)
    else
      .ok (stack, true)
  else
    .error .generic

/-- C6 (counterexample): a 3x4 array is accepted by the constructor of a 5x5
layer — only the rank is validated, so the stored array's shape violates the
claimed invariant without any error. -/
theorem layer_init_accepts_mismatched_shape :
    (rasterLayerInit 5 5 0 5 (some { shape := [3, 4], val := fun _ => 0 })).isOk = true ∧
    (match rasterLayerInit 5 5 0 5 (some { shape := [3, 4], val := fun _ => 0 }) with
      | .ok node => node.data.map NpArr.shape = some [3, 4] ∧
          node.geom.n_rows = 5 ∧ node.geom.n_cols = 5
      | .error _ => False) ∧
    ([3, 4] : List Nat) ≠ [5, 5] :=
  ⟨rfl, ⟨rfl, rfl, rfl⟩, by decide⟩

/-- C6 (amended): the constructor validates only the rank of a supplied
array — a rank-2 array is accepted even if its shape mismatches the layer's
geometry; the data setters never reshape: an array of matching shape is
assigned unchanged, while a rank-correct array of mismatching shape is
rejected by emitting a warning and leaving the stored data unchanged (no
error is raised); the same holds for the rank-3 stack setter. -/
theorem shape_validation_semantics (n_rows n_cols : Nat) (ul_x ul_y : Int)
    (a : NpArr) (node : RasterLayerM) (stack : RasterStackM) (d3 : NpArr) :
    (a.shape.length = 2 →
      (rasterLayerInit n_rows n_cols ul_x ul_y (some a)).isOk = true) ∧
    (a.shape.length = 2 → a.shape ≠ [node.geom.n_rows, node.geom.n_cols] →
      rasterLayerSetData node a = Except.ok (node, true)) ∧
    (a.shape = [node.geom.n_rows, node.geom.n_cols] →
      rasterLayerSetData node a = Except.ok ({ node with data := some a }, false)) ∧
    (d3.shape.length = 3 →
      d3.shape ≠ [stack.layers.length, stack.geom.n_rows, stack.geom.n_cols] →
      rasterStackSetData stack d3 = Except.ok (stack, true)) := by
  refine ⟨?_, ?_, ?_, ?_⟩
  · intro h2
    simp [rasterLayerInit, h2, Except.isOk, Except.toBool]
  · intro h2 hne
    simp [rasterLayerSetData, h2, hne]
  · intro hsh
    have h2 : a.shape.length = 2 := by rw [hsh]; rfl
    simp [rasterLayerSetData, h2, hsh]
  · intro h3 hne
    simp [rasterStackSetData, h3, hne]

/-- Node used to witness the C6 amended theorem. -/
def c6Node : RasterLayerM :=
  { geom := c1Geom, rootGeom := c1Geom, data := none, io := none }

/-- Witness for the amended C6 theorem: on a 5x5 layer, assigning a 3x4 array
warns and leaves the data unchanged, and assigning a 5x5 array stores it. -/
theorem shape_validation_semantics_witness :
    rasterLayerSetData c6Node { shape := [3, 4], val := fun _ => 0 } =
      Except.ok (c6Node, true) ∧
    rasterLayerSetData c6Node { shape := [5, 5], val := fun _ => 0 } =
      Except.ok ({ c6Node with data := some { shape := [5, 5], val := fun _ => 0 } }, false) :=
  ⟨(shape_validation_semantics 5 5 0 5 { shape := [3, 4], val := fun _ => 0 } c6Node
      { geom := c1Geom, labels := [], layers := [], data := none }
      { shape := [3, 4], val := fun _ => 0 }).2.1 rfl (by decide),
   (shape_validation_semantics 5 5 0 5 { shape := [5, 5], val := fun _ => 0 } c6Node
      { geom := c1Geom, labels := [], layers := [], data := none }
      { shape := [3, 4], val := fun _ => 0 }).2.2.1 rfl⟩

/-! Claim C8: in-place mutation and the parent back-reference. -/

/-- Heap view of a `RasterData` node used to reason about Python object
references: the per-instance geometry/array fields plus the parent
back-reference (raster.py:196), held as an index into a node store. -/
structure NodeH where
  geom : RasterGeometry
  data : Option NpArr
  parent : Option Nat

/-- Store of live nodes; a node's parent field refers to a store position,
mirroring a Python object reference. -/
def NodeStore := List NodeH

/-- Embedding of an in-place `load`/`crop` on the node at position `i`
(raster.py:455-458): exactly that instance's `data_type`/`_data`/`raster_geom`
fields are overwritten; its parent field and every other node are untouched. -/
def inplaceLoad (store : NodeStore) (i : Nat) (g : RasterGeometry)
    (d : Option NpArr) : NodeStore :=
  match store.get? i with
  | some n => store.set i { n with geom := g, data := d }
  | none => store

/-- What a child node observes through its parent back-reference:
`self.parent.raster_geom`, resolved through the store. -/
def observeParentGeom (store : NodeStore) (c : Nat) : Option RasterGeometry :=
  (store.get? c).bind (fun n => n.parent.bind (fun p => (store.get? p).map NodeH.geom))

/-- Geometry of the C8 parent before the in-place load. -/
def c8G0 : RasterGeometry := { ul_x := 0, ul_y := 5, n_rows := 5, n_cols := 5 }

/-- Geometry assigned to the C8 parent by the in-place load. -/
def c8G1 : RasterGeometry := { ul_x := 1, ul_y := 4, n_rows := 2, n_cols := 2 }

/-- Store with the parent node at position 0 and a child (created from it,
parent pointer 0) at position 1. -/
def c8Store : NodeStore :=
  [{ geom := c8G0, data := none, parent := none },
   { geom := c8G1, data := none, parent := some 0 }]

/-- C8 (counterexample): before the in-place load the child observes its
parent's geometry `c8G0`; after `inplace=True` load on the parent the child
observes the new geometry `c8G1` through the same back-reference — the parent
link is a Python object reference, not a snapshot taken at creation time. -/
theorem child_observes_inplace_mutation :
    observeParentGeom c8Store 1 = some c8G0 ∧
    observeParentGeom (inplaceLoad c8Store 0 c8G1 none) 1 = some c8G1 ∧
    c8G1 ≠ c8G0 :=
  ⟨rfl, rfl, by decide⟩

/-- C8 (amended): an in-place load on node `i` replaces only that node's own
geometry/array fields — every other store position is unchanged — but a child
whose parent pointer is `i` observes the new geometry through its parent
chain afterwards; the parent link is a reference, not a snapshot. -/
theorem inplace_load_frame_and_reference (store : NodeStore) (i : Nat)
    (g : RasterGeometry) (d : Option NpArr) :
    (∀ j, j ≠ i → (inplaceLoad store i g d).get? j = store.get? j) ∧
    (∀ c cn, store.get? c = some cn → cn.parent = some i → i < store.length →
      observeParentGeom (inplaceLoad store i g d) c = some g) := by
  constructor
  · intro j hj
    unfold inplaceLoad
    cases hi : store.get? i with
    | none => rfl
    | some n => exact List.get?_set_ne _ _ (Ne.symm hj)
  · intro c cn hc hp hi
    cases hn : store.get? i with
    | none =>
      rw [List.get?_eq_none] at hn
      omega
    | some n =>
      have hset : inplaceLoad store i g d =
          store.set i { n with geom := g, data := d } := by
        unfold inplaceLoad
        rw [hn]
      rw [hset]
      by_cases hci : c = i
      · subst hci
        have hcn : n = cn := Option.some.inj (hn ▸ hc)
        subst hcn
        unfold observeParentGeom
        rw [List.get?_set_eq_of_lt _ hi]
        simp only [Option.some_bind]
        rw [show NodeH.parent { n with geom := g, data := d } = n.parent from rfl, hp]
        simp only [Option.some_bind]
        rw [List.get?_set_eq_of_lt _ hi]
        rfl
      · unfold observeParentGeom
        rw [List.get?_set_ne _ _ (fun h => hci h.symm), hc]
        simp only [Option.some_bind]
        rw [hp]
        simp only [Option.some_bind]
        rw [List.get?_set_eq_of_lt _ hi]
        rfl

/-- Witness for the amended C8 theorem at the two-node store: the child slot
is untouched by the in-place load on the parent, and the child resolves the
parent's new geometry through its back-reference. -/
theorem inplace_load_frame_and_reference_witness :
    (inplaceLoad c8Store 0 c8G1 none).get? 1 = c8Store.get? 1 ∧
    observeParentGeom (inplaceLoad c8Store 0 c8G1 none) 1 = some c8G1 :=
  ⟨(inplace_load_frame_and_reference c8Store 0 c8G1 none).1 1 (by decide),
   (inplace_load_frame_and_reference c8Store 0 c8G1 none).2 1
     { geom := c8G1, data := none, parent := some 0 } rfl rfl (by decide)⟩

/-! Claim C9: RasterStack.write and write_layers destination counts. -/

/-- A single dispatched file write (one io.write call to one filepath). -/
inductive WriteEff where
  | wrote (filepath : String)
  deriving DecidableEq, Repr

/-- Embedding of `RasterLayer._io_class_from_filepath` /
`RasterStack._io_class_from_filepath` (raster.py:1258-1290, 1885-1917): the
io class is chosen by the file extension; unsupported extensions raise an
`IOError`. -/
def ioClassFromFilepath (filepath : String) : Except PyErr Unit :=
  if filepath.endsWith ".tiff" || filepath.endsWith ".tif" ||
      filepath.endsWith ".geotiff" || filepath.endsWith ".nc" ||
      filepath.endsWith ".netcdf" || filepath.endsWith ".ncdf" then
    .ok ()
  else
    .error .ioError

/-- Embedding of `RasterStack.write_stack` (raster.py:1625-1670) at the
granularity of dispatched io writes: resolve the io class from the extension,
convert the stack's data (failing on an unbound stack), then perform exactly
one write of the whole selection into the single target file. -/
def writeStack (stack : RasterStackM) (filepath : String) :
    List WriteEff × Option PyErr :=
  match ioClassFromFilepath filepath with
  | .error e => ([], some e)
  | .ok _ =>
    match stack.data with
    | none => ([], some .typeError)
    | some _ => ([WriteEff.wrote filepath], none)

/-- Loop of `RasterStack.write_layers` (raster.py:1703-1713): for each
filepath/label pair, an unknown label raises an `IndexError` (raster.py:1708)
before that pair's write; otherwise one single-layer write is dispatched to
the path. -/
def writeLayersLoop (all_layer_ids : List Int) (pairs : List (String × Int)) :
    List WriteEff × Option PyErr :=
  match pairs with
  | [] => ([], none)
  | (filepath, layer_id) :: rest =>
    if all_layer_ids.contains layer_id then
      match ioClassFromFilepath filepath with
      | .error e => ([], some e)
      | .ok _ =>
        let (effs, err) := writeLayersLoop all_layer_ids rest
        (WriteEff.wrote filepath :: effs, err)
    else
      ([], some .indexError)

/-- Embedding of `RasterStack.write_layers` (raster.py:1672-1713): when the
number of filepaths differs from the number of given labels, a plain
`Exception` is raised (raster.py:1698-1701) before the write loop runs, so
no io write is dispatched. -/
def writeLayers (stack : RasterStackM) (filepaths : List String)
    (layer_ids : List Int) : List WriteEff × Option PyErr :=
  if filepaths.length ≠ layer_ids.length then
    ([], some .generic)
  else
    writeLayersLoop stack.labels (filepaths.zip layer_ids)

/-- Embedding of `RasterStack.write` (raster.py:1593-1623): with `stack=True`
more than one filepath raises a plain `Exception` (raster.py:1617-1619)
before anything is written; with one filepath it dispatches `write_stack`;
with `stack=False` it dispatches `write_layers`. -/
def rasterStackWrite (stack : RasterStackM) (filepaths : List String)
    (stackFlag : Bool) (layer_ids : List Int) : List WriteEff × Option PyErr :=
  if stackFlag then
    if filepaths.length > 1 then
      ([], some .generic)
    else
      match filepaths with
      | [] => ([], some .indexError)
      | filepath :: _ => writeStack stack filepath
  else
    writeLayers stack filepaths layer_ids

/-- C9: writing with `stack=True` and more than one destination filepath
fails (with no write dispatched), and `write_layers` fails before any io
write whenever the filepath count differs from the label count. -/
theorem write_destination_count_checks (stack : RasterStackM)
    (filepaths : List String) (layer_ids : List Int) :
    (filepaths.length > 1 →
      rasterStackWrite stack filepaths true layer_ids = ([], some PyErr.generic)) ∧
    (filepaths.length ≠ layer_ids.length →
      writeLayers stack filepaths layer_ids = ([], some PyErr.generic)) := by
  constructor
  · intro h
    simp [rasterStackWrite, h]
  · intro h
    simp [writeLayers, h]

/-- Stack used to witness C9. -/
def c9Stack : RasterStackM :=
  { geom := c1Geom, labels := [0, 1], layers := [], data := none }

/-- Witness for C9: two filepaths with `stack=True` fail, and two filepaths
against three labels fail in `write_layers`, both with no write performed. -/
theorem write_destination_count_checks_witness :
    rasterStackWrite c9Stack ["a.tif", "b.tif"] true [0, 1] =
      ([], some PyErr.generic) ∧
    writeLayers c9Stack ["a.tif", "b.tif"] [0, 1, 2] = ([], some PyErr.generic) :=
  ⟨(write_destination_count_checks c9Stack ["a.tif", "b.tif"] [0, 1]).1 (by decide),
   (write_destination_count_checks c9Stack ["a.tif", "b.tif"] [0, 1, 2]).2 (by decide)⟩

/-! Claim C2: scale factors handed to NetCdfReader decoders. -/

/-- Modelled from the spec: the per-variable metadata accessors of a
`NetCdf4File` (FormatDriver contract; `veranda.raster.native.netcdf` is not
part of the embedded sources): nodata value, scale factor, offset and data
type per data variable. -/
structure NcFileM where
  data_variables : List String
  nodatavals : String → ℚ
  scale_factors : String → ℚ
  offsets : String → ℚ
  dtypes : String → String

/-- Reference metadata cached on a `NetCdfReader` instance. -/
structure NcRefMeta where
  nodatavals : String → ℚ
  scale_factors : String → ℚ
  offsets : String → ℚ
  dtypes : String → String

/-- Embedding of the metadata caching of `NetCdfReader.__init__`
(netcdf.py:49-58).  Line 53 reads `self._ref_scale_factors =
nc_file.nodatavals`: the cached scale factors are the file's nodata values. -/
def netCdfReaderInit (nc_file : NcFileM) : NcRefMeta :=
  { nodatavals := nc_file.nodatavals
    scale_factors := nc_file.nodatavals
    offsets := nc_file.offsets
    dtypes := nc_file.dtypes }

/-- Keyword arguments passed to a decoder by
`NetCdfReader.__load_data_per_data_variable`. -/
structure DecoderCall where
  nodataval : ℚ
  scale_factor : ℚ
  offset : ℚ
  dtype : String

/-- Embedding of the decoder invocation of
`NetCdfReader.__load_data_per_data_variable` (netcdf.py:225-233): the
keyword arguments are drawn from the cached reference metadata. -/
def loadDataPerDataVariableCall (ref : NcRefMeta) (data_variable : String) :
    DecoderCall :=
  { nodataval := ref.nodatavals data_variable
    scale_factor := ref.scale_factors data_variable
    offset := ref.offsets data_variable
    dtype := ref.dtypes data_variable }

/-- NetCDF file of the C2 failing input: variable `sig0` with nodata value
255 and scale factor 1/100. -/
def c2File : NcFileM :=
  { data_variables := ["sig0"]
    nodatavals := fun _ => 255
    scale_factors := fun _ => 1/100
    offsets := fun _ => 0
    dtypes := fun _ => "uint8" }

/-- C2: the `scale_factor` a decoder receives is the file's nodata value for
that variable, not its scale factor (netcdf.py:53 assigns `nc_file.nodatavals`
to `_ref_scale_factors`); the `offset` argument is correct.  At the concrete
file with scale factor 1/100 and nodata 255 the decoder is called with
`scale_factor = 255`. -/
theorem netcdf_decoder_gets_nodataval_as_scale_factor :
    (∀ (f : NcFileM) (v : String),
      (loadDataPerDataVariableCall (netCdfReaderInit f) v).scale_factor =
        f.nodatavals v ∧
      (loadDataPerDataVariableCall (netCdfReaderInit f) v).offset = f.offsets v) ∧
    (loadDataPerDataVariableCall (netCdfReaderInit c2File) "sig0").scale_factor = 255 ∧
    c2File.scale_factors "sig0" = 1/100 ∧ ((255 : ℚ) ≠ 1/100) :=
  ⟨fun _ _ => ⟨rfl, rfl⟩, rfl, rfl, by norm_num⟩

/-! Claim C10: GeoTiffDriver.read auto-decoding. -/

/-- Per-band decoding metadata of a GeoTIFF band (geotiff.py). -/
structure GtBandMeta where
  scale_factor : ℚ
  offset : ℚ
  nodataval : ℚ

/-- Rank-2 integer array (a raw band as returned by `ReadAsArray`). -/
structure MatI where
  n_rows : Nat
  n_cols : Nat
  val : Nat → Nat → Int

/-- Rank-2 float array; `none` models an IEEE NaN entry, rationals stand in
for the other float values. -/
structure MatF where
  n_rows : Nat
  n_cols : Nat
  val : Nat → Nat → Option ℚ

/-- Numpy `band_data.astype(float)` (geotiff.py:278). -/
def astypeFloat (m : MatI) : MatF :=
  { n_rows := m.n_rows, n_cols := m.n_cols, val := fun i j => some ((m.val i j : ℚ)) }

/-- Numpy `band_data[band_data == nodataval] = np.nan` (geotiff.py:279);
a NaN entry never compares equal to the nodata value. -/
def setNodataToNan (m : MatF) (nodataval : ℚ) : MatF :=
  { n_rows := m.n_rows, n_cols := m.n_cols
    val := fun i j =>
      match m.val i j with
      | some x => if x = nodataval then none else some x
      | none => none }

/-- Numpy `band_data * scale_factor + offset` (geotiff.py:280); NaN entries
propagate. -/
def matScaleOffset (m : MatF) (scale_factor offset : ℚ) : MatF :=
  { n_rows := m.n_rows, n_cols := m.n_cols
    val := fun i j => (m.val i j).map (fun x => x * scale_factor + offset) }

/-- Result of reading one band: the raw integer array or a decoded float
array. -/
inductive GtBandData where
  | ints (m : MatI)
  | floats (m : MatF)

/-- Embedding of the per-band body of `GeoTiffDriver.read`
(geotiff.py:270-288): with `auto_decode` the raw band array is cast to float,
nodata pixels are set to NaN and the affine decoding is applied; without
`auto_decode`, a supplied decoder path reaches
`GDAL_TO_NUMPY_DTYPE(self._dtypes[band])` (geotiff.py:283), which calls a
dict and raises a `TypeError`; without a decoder the raw array is returned
unchanged. -/
def gtDriverReadBand (meta : GtBandMeta) (auto_decode has_decoder : Bool)
    (band_data : MatI) : Except PyErr GtBandData :=
  if auto_decode then
    .ok (.floats (matScaleOffset (setNodataToNan (astypeFloat band_data)
      meta.nodataval) meta.scale_factor meta.offset))
  else
    if has_decoder then
      .error .typeError
    else
      .ok (.ints band_data)

/-- Stated from the specification's words, for comparison with the code: the
decoded value of a pixel is the raw value cast to float, NaN if it equals the
band's nodata value, then multiplied by the scale factor and incremented by
the offset. -/
def specAutoDecodePixel (meta : GtBandMeta) (x : Int) : Option ℚ :=
  if (x : ℚ) = meta.nodataval then none
  else some ((x : ℚ) * meta.scale_factor + meta.offset)

/-- C10: with `auto_decode=True` every band is returned as a float array of
the raw band's shape whose every pixel follows the nodata/scale/offset
decoding formula; with `auto_decode=False` and no decoder the raw band array
is returned unchanged. -/
theorem gt_read_auto_decode_formula (meta : GtBandMeta) (band_data : MatI) :
    (∃ out, gtDriverReadBand meta true false band_data =
        Except.ok (GtBandData.floats out) ∧
      out.n_rows = band_data.n_rows ∧ out.n_cols = band_data.n_cols ∧
      ∀ i j, out.val i j = specAutoDecodePixel meta (band_data.val i j)) ∧
    gtDriverReadBand meta false false band_data =
      Except.ok (GtBandData.ints band_data) := by
  constructor
  · refine ⟨_, rfl, rfl, rfl, ?_⟩
    intro i j
    simp only [matScaleOffset, setNodataToNan, astypeFloat, specAutoDecodePixel]
    by_cases h : ((band_data.val i j : ℚ)) = meta.nodataval
    · simp [h]
    · simp [h]
  · rfl
